import Mathlib

/-!
Verification development for the wordleduel server core: the room/game state
machine in `src/utils/roomManager.js` (class `RoomManager`, with the
`WordValidator` class appended in the same file) and the real-time handler
`GameHandler` in `src/socket/gameHandler.js`.

The JavaScript mutates room objects held in a `Map`; here every operation is
a pure function threading the store (an association list keyed by room code)
or a single room explicitly.  Clock reads (`new Date()`) become an explicit
`now : Nat` argument; the word dictionary and the random word become explicit
parameters, as the spec treats them as an external WordSource.
-/

/-- JavaScript `String.prototype.trim` on the character list (whitespace
stripped from both ends). -/
def trimBoth (cs : List Char) : List Char :=
  ((cs.dropWhile Char.isWhitespace).reverse.dropWhile Char.isWhitespace).reverse

/-- `w.trim()`. -/
def strTrim (s : String) : String := String.mk (trimBoth s.toList)

/-- `toUpperCase` on one ASCII character. -/
def charUpper (c : Char) : Char :=
  if 'a' ≤ c ∧ c ≤ 'z' then Char.ofNat (c.toNat - 32) else c

/-- `w.toUpperCase()` (ASCII domain). -/
def strUpper (s : String) : String := String.mk (s.toList.map charUpper)

/-- config.js: MAX_GUESSES. -/
def MAX_GUESSES : Nat := 6

/-- config.js: WORD_LENGTH. -/
def WORD_LENGTH : Nat := 5

/-- One stored guess: `{ word, attempt, timestamp }` pushed by
`RoomManager.submitGuess`. -/
structure GuessEntry where
  word : String
  attempt : Nat
  timestamp : Nat
deriving DecidableEq

/-- A player record as built by `createRoom` / `addPlayerToRoom`. -/
structure Player where
  id : String
  username : String
  score : Nat
  eliminated : Bool
  guesses : List GuessEntry
  won : Bool
  joinedAt : Nat
deriving DecidableEq

/-- Room status strings: 'waiting' | 'playing' | 'finished'. -/
inductive Status where
  | waiting
  | playing
  | finished
deriving DecidableEq

/-- Game modes: 'duel' | 'battleRoyale'. -/
inductive Mode where
  | duel
  | battleRoyale
deriving DecidableEq

/-- The per-room `settings` object. -/
structure RoomSettings where
  allowCustomWords : Bool
  maxGuesses : Nat
  wordLength : Nat
deriving DecidableEq

/-- A room as built by `RoomManager.createRoom`. -/
structure Room where
  code : String
  hostId : String
  players : List Player
  solutionWord : String
  status : Status
  mode : Mode
  maxPlayers : Nat
  gameStartTime : Option Nat
  roundNumber : Nat
  createdAt : Nat
  lastActivity : Nat
  settings : RoomSettings
deriving DecidableEq

/-- The manager's `this.rooms` map, as an association list keyed by code. -/
abbrev Store := List (String × Room)

/-- `this.rooms.get(code)`. -/
def getRoom (s : Store) (code : String) : Option Room :=
  (s.find? (fun pr => pr.1 == code)).map Prod.snd

/-- Committing an in-place mutation of the room object back into the map:
replace the entry for `code` (append if absent, as `Map.set` does). -/
def setRoom : Store → String → Room → Store
  | [], code, r => [(code, r)]
  | pr :: rest, code, r =>
    if pr.1 == code then (code, r) :: rest else pr :: setRoom rest code r

/-- `this.rooms.delete(code)` (`RoomManager.deleteRoom`, minus logging). -/
def deleteRoom (s : Store) (code : String) : Store :=
  s.filter (fun pr => pr.1 != code)

/-- `room.players.find(p => p.username === username)`. -/
def findPlayer (room : Room) (username : String) : Option Player :=
  room.players.find? (fun p => p.username == username)

/-- In-place mutation of the player object returned by `players.find`:
replace the first list entry whose username matches. -/
def updateFirst : List Player → String → Player → List Player
  | [], _, _ => []
  | p :: ps, username, q =>
    if p.username == username then q :: ps else p :: updateFirst ps username q

/-- `room.players.filter(p => !p.eliminated)` as computed by the handler. -/
def activePlayers (room : Room) : List Player :=
  room.players.filter (fun p => !p.eliminated)

/-- `RoomManager.addPlayerToRoom(code, username)`.  Throwing leaves the map
untouched, so errors return the input store unchanged. -/
def addPlayerToRoom (s : Store) (code username : String) (now : Nat) :
    Except String Room × Store :=
  match getRoom s code with
  | none => (Except.error "Room not found", s)
  | some room =>
    if room.status ≠ Status.waiting then
      (Except.error "Game already in progress", s)
    else if room.maxPlayers ≤ room.players.length then
      (Except.error ("Room is full (" ++ toString room.maxPlayers ++ " players max)"), s)
    else if room.players.any (fun p => p.username == username) then
      (Except.error "Username already taken in this room", s)
    else
      let player : Player :=
        { id := username, username := username, score := 0, eliminated := false,
          guesses := [], won := false, joinedAt := now }
      let room1 := { room with players := room.players ++ [player], lastActivity := now }
      (Except.ok room1, setRoom s code room1)

/-- Placeholder for `room.players[0]` in a branch where the list is known to
be non-empty. -/
def defaultPlayer : Player :=
  { id := "", username := "", score := 0, eliminated := false,
    guesses := [], won := false, joinedAt := 0 }

/-- `RoomManager.removePlayerFromRoom(code, username)`. -/
def removePlayerFromRoom (s : Store) (code username : String) (now : Nat) :
    Bool × Store :=
  match getRoom s code with
  | none => (false, s)
  | some room =>
    match room.players.findIdx? (fun p => p.username == username) with
    | none => (false, s)
    | some i =>
      let players1 := room.players.eraseIdx i
      let room1 := { room with players := players1, lastActivity := now }
      if players1.length = 0 then
        (true, deleteRoom s code)
      else
        let room2 :=
          if room1.hostId = username then
            { room1 with hostId := (players1.headD defaultPlayer).username }
          else room1
        (true, setRoom s code room2)

/-- `player.eliminated=false; player.guesses=[]; player.won=false; player.score=0`
applied to each player by `RoomManager.startGame`. -/
def resetPlayer (p : Player) : Player :=
  { p with eliminated := false, guesses := [], won := false, score := 0 }

/-- `RoomManager.startGame(code, customWord)`.  `randomWord` stands for the
draw from `getRandomWord()`. -/
def startGame (s : Store) (code : String) (customWord : Option String)
    (randomWord : String) (now : Nat) : Except String Room × Store :=
  match getRoom s code with
  | none => (Except.error "Room not found", s)
  | some room =>
    if room.status ≠ Status.waiting then
      (Except.error "Game already in progress", s)
    else if room.players.length < 2 then
      (Except.error "Need at least 2 players to start", s)
    else
      let sol :=
        match customWord with
        | some w => if (strTrim w).length ≠ 0 then strUpper (strTrim w) else randomWord
        | none => randomWord
      let room1 :=
        { room with
          solutionWord := sol,
          players := room.players.map resetPlayer,
          status := Status.playing,
          gameStartTime := some now,
          roundNumber := 1,
          lastActivity := now }
      (Except.ok room1, setRoom s code room1)

/-- The guess shape check inside `RoomManager.submitGuess`:
`guess.length !== config.WORD_LENGTH || !/^[A-Z]+$/.test(guess)`. -/
def validGuessRM (g : String) : Bool :=
  g.length == WORD_LENGTH &&
    g.toList.all (fun c => decide ('A' ≤ c) && decide (c ≤ 'Z'))

/-- Result tag of `RoomManager.submitGuess`: `{won:true}`, `{eliminated:true}`
or `{continue:true}`. -/
inductive Outcome where
  | won
  | eliminated
  | cont
deriving DecidableEq

/-- The body of `RoomManager.submitGuess` once the room is in hand: player
lookup, shape check, push of the guess, win check, exhaustion check. -/
def submitGuessRoom (room : Room) (username guess : String)
    (attemptNumber now : Nat) : Except String (Outcome × Room) :=
  match findPlayer room username with
  | none => Except.error "Player not found or already eliminated"
  | some player =>
    if player.eliminated then
      Except.error "Player not found or already eliminated"
    else if ¬ validGuessRM guess then
      Except.error ("Guess must be exactly " ++ toString WORD_LENGTH ++ " letters")
    else
      let player1 :=
        { player with
          guesses := player.guesses ++
            [{ word := guess, attempt := attemptNumber, timestamp := now }] }
      if guess = room.solutionWord then
        let player2 := { player1 with won := true, score := attemptNumber }
        Except.ok (Outcome.won,
          { room with players := updateFirst room.players username player2 })
      else if MAX_GUESSES ≤ player1.guesses.length then
        let player2 := { player1 with eliminated := true }
        Except.ok (Outcome.eliminated,
          { room with players := updateFirst room.players username player2 })
      else
        Except.ok (Outcome.cont,
          { room with players := updateFirst room.players username player1 })

/-- `RoomManager.submitGuess(code, username, guess, attemptNumber)` at store
level: the room object is mutated in place, which here is a write-back. -/
def submitGuess (s : Store) (code username guess : String)
    (attemptNumber now : Nat) : Except String (Outcome × Room) × Store :=
  match getRoom s code with
  | none => (Except.error "Room not found", s)
  | some room =>
    match submitGuessRoom room username guess attemptNumber now with
    | Except.error e => (Except.error e, s)
    | Except.ok (o, room1) => (Except.ok (o, room1), setRoom s code room1)

/-- `RoomManager.cleanupOldRooms`: delete every room with
`now - createdAt > maxAge`, keep the rest. -/
def cleanupOldRooms (s : Store) (now maxAgeMs : Nat) : Store :=
  s.filter (fun pr => decide (now - pr.2.createdAt ≤ maxAgeMs))

/-- `WordValidator.isValidWord`: trim, uppercase, length check, dictionary
membership.  The loaded dictionary is the `words` parameter. -/
def isValidWord (words : List String) (w : String) : Bool :=
  (strUpper (strTrim w)).length == WORD_LENGTH && words.contains (strUpper (strTrim w))

/-- `WordValidator.isValidWordFormat`: trim, length check, `/^[a-zA-Z]+$/`. -/
def isValidWordFormat (w : String) : Bool :=
  (strTrim w).length == WORD_LENGTH &&
    (strTrim w).toList.all (fun c =>
      (decide ('a' ≤ c) && decide (c ≤ 'z')) || (decide ('A' ≤ c) && decide (c ≤ 'Z')))

/-- The events `GameHandler.handleSubmitGuess` emits to the room channel
(private error replies included). -/
inductive GameEvent where
  | gameOver (winner : Option String)
  | playerEliminated (eliminatedPlayer : String) (remainingPlayers : Nat)
  | guessSubmitted (username guess : String) (attemptNumber : Nat)
      (won eliminated : Bool)
  | gameError (msg : String)
deriving DecidableEq

/-- The handler's shared battle-royale check: `activePlayers.length === 1`
means the sole active player wins and the room finishes; otherwise a
`player-eliminated` event is emitted. -/
def brCheck (room1 : Room) (username : String) : Room × List GameEvent :=
  match activePlayers room1 with
  | [w] =>
    ({ room1 with status := Status.finished }, [GameEvent.gameOver (some w.username)])
  | _ =>
    (room1, [GameEvent.playerEliminated username (activePlayers room1).length])

/-- The `result.won` branch of `GameHandler.handleSubmitGuess`. -/
def postWon (room1 : Room) (username : String) : Room × List GameEvent :=
  match room1.mode with
  | Mode.duel =>
    ({ room1 with status := Status.finished }, [GameEvent.gameOver (some username)])
  | Mode.battleRoyale => brCheck room1 username

/-- The `result.eliminated` branch of `GameHandler.handleSubmitGuess`. -/
def postEliminated (room1 : Room) (username : String) : Room × List GameEvent :=
  match room1.mode with
  | Mode.duel =>
    match room1.players.find? (fun p => !(p.username == username)) with
    | some other =>
      if MAX_GUESSES ≤ other.guesses.length then
        ({ room1 with status := Status.finished }, [GameEvent.gameOver none])
      else (room1, [])
    | none => (room1, [])
  | Mode.battleRoyale => brCheck room1 username

/-- `GameHandler.handleSubmitGuess` on an existing room (the `roomExists`
lookup is the caller's; the handler and the manager alias the same room
object, modelled by threading the updated room).  Returns the room as left
by the call and the emitted events in order. -/
def handleSubmitGuess (room : Room) (username guess : String)
    (attemptNumber now : Nat) : Room × List GameEvent :=
  match findPlayer room username with
  | none => (room, [])
  | some player =>
    if player.eliminated then (room, [])
    else if ¬ isValidWordFormat guess then
      (room, [GameEvent.gameError "Invalid guess format"])
    else
      match submitGuessRoom room username guess attemptNumber now with
      | Except.error _ => (room, [GameEvent.gameError "Failed to submit guess"])
      | Except.ok (o, room1) =>
        let post :=
          match o with
          | Outcome.won => postWon room1 username
          | Outcome.eliminated => postEliminated room1 username
          | Outcome.cont => (room1, [])
        let cnt :=
          match findPlayer room1 username with
          | some p => p.guesses.length
          | none => 0
        (post.1, post.2 ++
          [GameEvent.guessSubmitted username guess cnt
            (decide (o = Outcome.won)) (decide (o = Outcome.eliminated))])

/-- The reply of `GameHandler.handleStartGame`: a private error event or the
`game-started` broadcast carrying the updated room. -/
inductive StartOutcome where
  | err (msg : String)
  | started (room : Room)
deriving DecidableEq

/-- The custom-word validation block of `GameHandler.handleStartGame`:
`if (customWord && customWord.trim())` then check
`isValidWord(customWord.trim().toUpperCase())`. -/
def customWordInvalid (words : List String) : Option String → Bool
  | none => false
  | some w =>
    if (strTrim w).length ≠ 0 then ! isValidWord words (strUpper (strTrim w)) else false

/-- `GameHandler.handleStartGame`: room lookup, per-mode minimum player
check, custom word validation, then delegation to `RoomManager.startGame`
(whose throw the surrounding catch turns into a generic error, the map
untouched). -/
def handleStartGame (words : List String) (s : Store) (code : String)
    (customWord : Option String) (randomWord : String) (now : Nat) :
    StartOutcome × Store :=
  match getRoom s code with
  | none => (StartOutcome.err "Room not found", s)
  | some room =>
    if room.mode = Mode.duel ∧ room.players.length < 2 then
      (StartOutcome.err "Duel mode requires at least 2 players", s)
    else if room.mode = Mode.battleRoyale ∧ room.players.length < 2 then
      (StartOutcome.err "Battle Royale mode requires at least 2 players", s)
    else if customWordInvalid words customWord then
      (StartOutcome.err "Invalid word. Please choose a valid 5-letter word.", s)
    else
      match startGame s code customWord randomWord now with
      | (Except.ok room1, s1) => (StartOutcome.started room1, s1)
      | (Except.error _, _) => (StartOutcome.err "Failed to start game", s)

/-! Concrete fixtures used by witnesses and counterexamples. -/

/-- A stored `{ word, attempt, timestamp }` literal. -/
def gE (w : String) (a t : Nat) : GuessEntry :=
  { word := w, attempt := a, timestamp := t }

/-- A player literal with the given guesses and flags. -/
def mkP (u : String) (gs : List GuessEntry) (elim won : Bool) : Player :=
  { id := u, username := u, score := 0, eliminated := elim, guesses := gs,
    won := won, joinedAt := 0 }

/-- The settings object `createRoom` builds from config.js. -/
def stdSettings : RoomSettings :=
  { allowCustomWords := true, maxGuesses := 6, wordLength := 5 }

/-- Three-player battle-royale room mid-game; alice has two prior guesses. -/
def roomBR3 : Room :=
  { code := "BR01", hostId := "alice",
    players := [mkP "alice" [gE "CRANE" 1 11, gE "SLATE" 2 12] false false,
                mkP "bob" [] false false, mkP "carol" [] false false],
    solutionWord := "HELLO", status := Status.playing, mode := Mode.battleRoyale,
    maxPlayers := 8, gameStartTime := some 10, roundNumber := 1,
    createdAt := 0, lastActivity := 10, settings := stdSettings }

/-- A finished duel room: alice already won, bob has made no guess. -/
def roomFin : Room :=
  { code := "DU01", hostId := "alice",
    players := [mkP "alice" [gE "HELLO" 1 11] false true, mkP "bob" [] false false],
    solutionWord := "HELLO", status := Status.finished, mode := Mode.duel,
    maxPlayers := 2, gameStartTime := some 10, roundNumber := 1,
    createdAt := 0, lastActivity := 10, settings := stdSettings }

/-- A duel room in play, no guesses yet, last activity at time 10. -/
def roomC3 : Room :=
  { code := "DU02", hostId := "alice",
    players := [mkP "alice" [] false false, mkP "bob" [] false false],
    solutionWord := "HELLO", status := Status.playing, mode := Mode.duel,
    maxPlayers := 2, gameStartTime := some 10, roundNumber := 1,
    createdAt := 0, lastActivity := 10, settings := stdSettings }

/-- Store holding only `roomC3`. -/
def storeC3 : Store := [("DU02", roomC3)]

/-- A waiting duel room with two players (bob is host), for start/leave
fixtures. -/
def roomWait : Room :=
  { code := "DU03", hostId := "bob",
    players := [mkP "bob" [] false false, mkP "carol" [gE "CRANE" 1 2] true true],
    solutionWord := "", status := Status.waiting, mode := Mode.duel,
    maxPlayers := 2, gameStartTime := none, roundNumber := 1,
    createdAt := 0, lastActivity := 3, settings := stdSettings }

/-- Store holding only `roomWait`. -/
def storeWait : Store := [("DU03", roomWait)]

/-- A waiting duel room with a single player. -/
def roomSolo : Room :=
  { code := "DU04", hostId := "dave",
    players := [mkP "dave" [] false false],
    solutionWord := "", status := Status.waiting, mode := Mode.duel,
    maxPlayers := 2, gameStartTime := none, roundNumber := 1,
    createdAt := 0, lastActivity := 3, settings := stdSettings }

/-- Store with the waiting rooms `roomWait`, `roomSolo` and the playing
room `roomC3`. -/
def storeMix : Store := [("DU03", roomWait), ("DU04", roomSolo), ("DU02", roomC3)]

/-- An old room (created at 0) and a fresh one (created at 95), for the
sweep. -/
def roomOld : Room := { roomC3 with code := "OLD1", createdAt := 0 }

/-- Fresh room for the sweep fixture. -/
def roomNew : Room := { roomC3 with code := "NEW1", createdAt := 95 }

/-- Store with one expired and one fresh room. -/
def storeC9 : Store := [("OLD1", roomOld), ("NEW1", roomNew)]

/-! Helper lemmas on the store and on `updateFirst`. -/

/-- After a write-back, the lookup for the written code returns the new
room. -/
theorem getRoom_setRoom (s : Store) (code : String) (r : Room) :
    getRoom (setRoom s code r) code = some r := by
  induction s with
  | nil => simp [getRoom, setRoom]
  | cons pr rest ih =>
    by_cases hc : pr.1 == code
    · simp [setRoom, hc, getRoom]
    · simp only [setRoom, hc, if_neg]
      simpa [getRoom, List.find?, hc] using ih

/-- After deletion, the lookup for the deleted code returns absent. -/
theorem getRoom_deleteRoom (s : Store) (code : String) :
    getRoom (deleteRoom s code) code = none := by
  induction s with
  | nil => rfl
  | cons pr rest ih =>
    by_cases hc : (pr.1 == code) = true
    · show getRoom (List.filter _ (pr :: rest)) code = none
      rw [List.filter_cons]
      simp only [bne, hc, Bool.not_true, Bool.false_eq_true, if_neg, not_false_iff]
      exact ih
    · show getRoom (List.filter _ (pr :: rest)) code = none
      rw [List.filter_cons]
      simp only [bne, Bool.not_eq_true', Bool.not_eq_false]
      rw [if_pos (by simpa using hc)]
      show ((pr :: List.filter _ rest).find? (fun x => x.1 == code)).map Prod.snd = none
      rw [List.find?_cons_of_neg _ (by simpa using hc)]
      exact ih

/-- Replacing the first matching player keeps the list length. -/
theorem updateFirst_length (ps : List Player) (u : String) (q : Player) :
    (updateFirst ps u q).length = ps.length := by
  induction ps with
  | nil => rfl
  | cons p ps ih =>
    by_cases hc : p.username == u
    · simp [updateFirst, hc]
    · simp [updateFirst, hc, ih]

/-- Positions holding a username other than the updated one are
untouched. -/
theorem updateFirst_getElem_ne (ps : List Player) (u : String) (q : Player)
    (j : Nat) (hne : ∀ p, ps[j]? = some p → p.username ≠ u) :
    (updateFirst ps u q)[j]? = ps[j]? := by
  induction ps generalizing j with
  | nil => rfl
  | cons p ps ih =>
    by_cases hc : (p.username == u) = true
    · cases j with
      | zero => exact absurd (by simpa using hc) (hne p (by simp))
      | succ j =>
        simp only [updateFirst, if_pos hc]
        simp [List.getElem?_cons_succ]
    · cases j with
      | zero => simp [updateFirst, hc]
      | succ j =>
        simp only [updateFirst, if_neg hc]
        simp only [List.getElem?_cons_succ]
        exact ih j (fun r hr => hne r (by simpa using hr))

/-- A found player satisfies the lookup predicate. -/
theorem findPlayer_username (room : Room) (u : String) (p : Player)
    (h : findPlayer room u = some p) : p.username = u := by
  have := List.find?_some h
  simpa using this

/-- Looking the updated player up again returns the replacement, provided a
match existed and the replacement keeps the username. -/
theorem find?_updateFirst_self (ps : List Player) (u : String) (q : Player)
    (hq : q.username = u) (h : (ps.find? (fun p => p.username == u)).isSome = true) :
    (updateFirst ps u q).find? (fun p => p.username == u) = some q := by
  induction ps with
  | nil => simp [List.find?] at h
  | cons p ps ih =>
    by_cases hc : p.username == u
    · simp [updateFirst, hc, List.find?, hq]
    · simp only [updateFirst, hc, Bool.false_eq_true, if_neg, not_false_iff]
      rw [List.find?_cons_of_neg _ (by simpa using hc)]
      refine ih ?_
      rwa [List.find?_cons_of_neg _ (by simpa using hc)] at h

/-- The first player with a different username is unaffected by the
update. -/
theorem find?_ne_updateFirst (ps : List Player) (u : String) (q : Player)
    (hq : q.username = u) :
    (updateFirst ps u q).find? (fun p => !(p.username == u)) =
      ps.find? (fun p => !(p.username == u)) := by
  induction ps with
  | nil => rfl
  | cons p ps ih =>
    by_cases hc : p.username == u
    · simp only [updateFirst, hc, if_pos]
      rw [List.find?_cons_of_neg _ (by simp [hq]),
        List.find?_cons_of_neg _ (by simpa using hc)]
    · simp only [updateFirst, hc, Bool.false_eq_true, if_neg, not_false_iff]
      rw [List.find?_cons_of_pos _ (by simpa using hc),
        List.find?_cons_of_pos _ (by simpa using hc)]

/-- The player record as left by a successful `RoomManager.submitGuess`:
the pushed guess, then the win or exhaustion update. -/
def updatedPlayer (room : Room) (p : Player) (g : String) (a now : Nat) : Player :=
  if g = room.solutionWord then
    { p with
      guesses := p.guesses ++ [{ word := g, attempt := a, timestamp := now }]
      won := true
      score := a }
  else if MAX_GUESSES ≤
      (p.guesses ++ ([{ word := g, attempt := a, timestamp := now }] : List GuessEntry)).length then
    ({ p with
      guesses := p.guesses ++ [{ word := g, attempt := a, timestamp := now }]
      eliminated := true } : Player)
  else
    ({ p with guesses := p.guesses ++ [{ word := g, attempt := a, timestamp := now }] } : Player)

/-- The result tag of a successful `RoomManager.submitGuess`. -/
def expectedOutcome (room : Room) (p : Player) (g : String) : Outcome :=
  if g = room.solutionWord then Outcome.won
  else if MAX_GUESSES ≤ p.guesses.length + 1 then Outcome.eliminated
  else Outcome.cont

/-- Computation of `submitGuessRoom` on the success path. -/
theorem submitGuessRoom_eq (room : Room) (u g : String) (a now : Nat) (p : Player)
    (hfp : findPlayer room u = some p) (he : p.eliminated = false)
    (hv : validGuessRM g = true) :
    submitGuessRoom room u g a now =
      Except.ok (expectedOutcome room p g,
        { room with players := updateFirst room.players u (updatedPlayer room p g a now) }) := by
  simp only [submitGuessRoom, hfp, he, hv, Bool.false_eq_true, if_false, not_true,
    not_false_iff, if_neg, ite_false, ite_true]
  unfold expectedOutcome updatedPlayer
  by_cases h1 : g = room.solutionWord
  · simp [h1, he]
  · by_cases h2 : MAX_GUESSES ≤ p.guesses.length + 1
    · simp [h1, h2, List.length_append, he]
    · simp [h1, h2, List.length_append, he]

/-- C9: the sweep deletes exactly the rooms whose age `now - createdAt`
exceeds the maximum age; every room within the threshold stays in the store
unchanged. -/
theorem c9_sweep (s : Store) (now maxAgeMs : Nat) (code : String) (room : Room) :
    (code, room) ∈ cleanupOldRooms s now maxAgeMs ↔
      (code, room) ∈ s ∧ ¬ (maxAgeMs < now - room.createdAt) := by
  simp [cleanupOldRooms, List.mem_filter, Nat.not_lt]

/-- Witness for C9 on a concrete store: the expired room is swept, the
fresh one survives. -/
theorem c9_sweep_witness :
    (("OLD1", roomOld) ∉ cleanupOldRooms storeC9 100 10) ∧
    (("NEW1", roomNew) ∈ cleanupOldRooms storeC9 100 10) := by
  constructor
  · intro hmem
    exact ((c9_sweep storeC9 100 10 "OLD1" roomOld).mp hmem).2 (by decide)
  · exact (c9_sweep storeC9 100 10 "NEW1" roomNew).mpr ⟨by decide, by decide⟩

/-- C7: `addPlayerToRoom` fails with the room-not-found, game-in-progress,
room-full and username-taken errors under the stated conditions, leaving the
store exactly as it was. -/
theorem c7_join_errors (s : Store) (code u : String) (now : Nat) :
    (getRoom s code = none →
      addPlayerToRoom s code u now = (Except.error "Room not found", s)) ∧
    (∀ room, getRoom s code = some room →
      (room.status ≠ Status.waiting →
        addPlayerToRoom s code u now = (Except.error "Game already in progress", s)) ∧
      (room.status = Status.waiting → room.maxPlayers ≤ room.players.length →
        addPlayerToRoom s code u now =
          (Except.error ("Room is full (" ++ toString room.maxPlayers ++ " players max)"), s)) ∧
      (room.status = Status.waiting → room.players.length < room.maxPlayers →
        (∃ p ∈ room.players, p.username = u) →
        addPlayerToRoom s code u now =
          (Except.error "Username already taken in this room", s))) := by
  refine ⟨fun h => by simp [addPlayerToRoom, h], fun room hroom => ⟨?_, ?_, ?_⟩⟩
  · intro hst
    simp [addPlayerToRoom, hroom, hst]
  · intro hst hfull
    simp [addPlayerToRoom, hroom, hst, hfull, Nat.not_lt.mpr hfull]
  · intro hst hlt hdup
    have hany : room.players.any (fun p => p.username == u) = true := by
      rcases hdup with ⟨p, hp, hpu⟩
      exact List.any_eq_true.mpr ⟨p, hp, by simpa using hpu⟩
    simp [addPlayerToRoom, hroom, hst, Nat.not_le.mpr hlt, hany]

/-- Witness for C7: all four failures on concrete stores, store returned
untouched. -/
theorem c7_join_errors_witness :
    addPlayerToRoom storeMix "NOPE" "eve" 9 = (Except.error "Room not found", storeMix) ∧
    addPlayerToRoom storeMix "DU02" "eve" 9 = (Except.error "Game already in progress", storeMix) ∧
    addPlayerToRoom storeMix "DU03" "eve" 9 =
      (Except.error ("Room is full (" ++ toString roomWait.maxPlayers ++ " players max)"), storeMix) ∧
    addPlayerToRoom storeMix "DU04" "dave" 9 =
      (Except.error "Username already taken in this room", storeMix) := by
  refine ⟨(c7_join_errors storeMix "NOPE" "eve" 9).1 (by decide), ?_, ?_, ?_⟩
  · exact (((c7_join_errors storeMix "DU02" "eve" 9).2 roomC3 (by decide)).1) (by decide)
  · exact (((c7_join_errors storeMix "DU03" "eve" 9).2 roomWait (by decide)).2.1) (by decide) (by decide)
  · exact (((c7_join_errors storeMix "DU04" "dave" 9).2 roomSolo (by decide)).2.2) (by decide) (by decide)
      ⟨mkP "dave" [] false false, by decide, by decide⟩

/-- C5: on a waiting room with at least two players `startGame` sets the
solution word, resets every player, and moves to playing with
`gameStartTime = now` and `roundNumber = 1`; with fewer than two players it
is rejected regardless of mode. -/
theorem c5_start_game (s : Store) (code : String) (room : Room)
    (cw : Option String) (rw0 : String) (now : Nat)
    (hroom : getRoom s code = some room) :
    (room.status = Status.waiting → 2 ≤ room.players.length →
      ∃ room1, startGame s code cw rw0 now = (Except.ok room1, setRoom s code room1) ∧
        room1.status = Status.playing ∧
        room1.gameStartTime = some now ∧
        room1.roundNumber = 1 ∧
        room1.solutionWord =
          (match cw with
           | some w => if (strTrim w).length ≠ 0 then strUpper (strTrim w) else rw0
           | none => rw0) ∧
        room1.players.length = room.players.length ∧
        ∀ p ∈ room1.players,
          p.guesses = [] ∧ p.eliminated = false ∧ p.won = false ∧ p.score = 0) ∧
    (room.players.length < 2 → (startGame s code cw rw0 now).1.isOk = false) := by
  constructor
  · intro hst hcnt
    have hne : ¬ (room.status ≠ Status.waiting) := by simp [hst]
    have hge : ¬ (room.players.length < 2) := Nat.not_lt.mpr hcnt
    simp only [startGame, hroom]
    rw [if_neg hne, if_neg hge]
    refine ⟨_, rfl, rfl, rfl, rfl, rfl, by simp, ?_⟩
    intro p hp
    simp only [List.mem_map] at hp
    obtain ⟨q, _, rfl⟩ := hp
    simp [resetPlayer]
  · intro hlt
    by_cases hst : room.status = Status.waiting
    · have hne : ¬ (room.status ≠ Status.waiting) := by simp [hst]
      simp [startGame, hroom, hne, hlt, Except.isOk, Except.toBool]
    · simp [startGame, hroom, hst, Except.isOk, Except.toBool]

/-- Witness for C5 on concrete stores: a 2-player waiting room starts, a
solo room is rejected. -/
theorem c5_start_game_witness :
    (startGame storeWait "DU03" none "HELLO" 50).1.isOk = true ∧
    (startGame storeMix "DU04" none "HELLO" 50).1.isOk = false := by
  constructor
  · obtain ⟨room1, heq, _⟩ :=
      (c5_start_game storeWait "DU03" roomWait none "HELLO" 50 (by decide)).1
        (by decide) (by decide)
    rw [heq]
    rfl
  · exact (c5_start_game storeMix "DU04" roomSolo none "HELLO" 50 (by decide)).2 (by decide)

/-- C4: a trimmed-non-empty custom word that fails the dictionary check
makes `handleStartGame` reply with the invalid-custom-word error and leave
the store (hence the room's status, solution word and players) exactly as it
was. -/
theorem c4_invalid_custom_word (words : List String) (s : Store) (code : String)
    (room : Room) (w rw0 : String) (now : Nat)
    (hroom : getRoom s code = some room)
    (hcount : 2 ≤ room.players.length)
    (hne : (strTrim w).length ≠ 0)
    (hinv : isValidWord words (strUpper (strTrim w)) = false) :
    handleStartGame words s code (some w) rw0 now =
      (StartOutcome.err "Invalid word. Please choose a valid 5-letter word.", s) := by
  have hge : ¬ (room.players.length < 2) := Nat.not_lt.mpr hcount
  simp [handleStartGame, hroom, hge, customWordInvalid, hne, hinv]

/-- Witness for C4: starting `roomWait` with the invalid custom word
" zzizz " is refused and the store is untouched. -/
theorem c4_invalid_custom_word_witness :
    handleStartGame ["HELLO"] storeWait "DU03" (some " zzizz ") "HELLO" 50 =
      (StartOutcome.err "Invalid word. Please choose a valid 5-letter word.", storeWait) :=
  c4_invalid_custom_word ["HELLO"] storeWait "DU03" roomWait " zzizz " "HELLO" 50
    (by decide) (by decide) (by decide) (by decide)

/-- Inversion of a successful `submitGuessRoom`: the player existed, was not
eliminated, the guess had the right shape, and the room changed only at that
player's entry. -/
theorem submitGuessRoom_ok_inv (room : Room) (u g : String) (a now : Nat)
    (o : Outcome) (room1 : Room)
    (h : submitGuessRoom room u g a now = Except.ok (o, room1)) :
    ∃ p, findPlayer room u = some p ∧ p.eliminated = false ∧ validGuessRM g = true ∧
      o = expectedOutcome room p g ∧
      room1 = { room with players := updateFirst room.players u (updatedPlayer room p g a now) } := by
  cases hfp : findPlayer room u with
  | none => simp [submitGuessRoom, hfp] at h
  | some p =>
    by_cases he : p.eliminated = true
    · simp [submitGuessRoom, hfp, he] at h
    · have he1 : p.eliminated = false := by simpa using he
      by_cases hv : validGuessRM g = true
      · rw [submitGuessRoom_eq room u g a now p hfp he1 hv] at h
        injection h with h1
        obtain ⟨h2, h3⟩ := Prod.mk.injEq .. |>.mp h1
        refine ⟨p, rfl, he1, hv, ?_, ?_⟩
        · exact h2.symm
        · exact h3.symm
      · simp [submitGuessRoom, hfp, he1, hv] at h

/-- The update keeps the player's username. -/
theorem updatedPlayer_username (room : Room) (p : Player) (g : String)
    (a now : Nat) : (updatedPlayer room p g a now).username = p.username := by
  unfold updatedPlayer
  split_ifs <;> rfl

/-- The update appends exactly the submitted guess. -/
theorem updatedPlayer_guesses (room : Room) (p : Player) (g : String)
    (a now : Nat) :
    (updatedPlayer room p g a now).guesses =
      p.guesses ++ [{ word := g, attempt := a, timestamp := now }] := by
  unfold updatedPlayer
  split_ifs <;> rfl

/-- C3 counterexample: a successful `submitGuess` leaves `lastActivity`
untouched (still 10) although the call happens at time 99, refuting "every
mutating operation that succeeds updates lastActivity". -/
theorem c3_counterexample :
    ((submitGuess storeC3 "DU02" "alice" "WORLD" 1 99).1.isOk = true) ∧
    ((getRoom (submitGuess storeC3 "DU02" "alice" "WORLD" 1 99).2 "DU02").map
        Room.lastActivity = some 10) ∧
    (10 : Nat) ≠ 99 := by
  refine ⟨by decide, by decide, by decide⟩

/-- C3 amended: `addPlayerToRoom`, `removePlayerFromRoom` and `startGame`
set `lastActivity` to the call time on success, but `submitGuess` leaves the
room's `lastActivity` unchanged. -/
theorem c3_amended (s : Store) (code u g : String) (a now : Nat) :
    (∀ room1 s1, addPlayerToRoom s code u now = (Except.ok room1, s1) →
      room1.lastActivity = now) ∧
    (∀ s1, removePlayerFromRoom s code u now = (true, s1) →
      ∀ room1, getRoom s1 code = some room1 → room1.lastActivity = now) ∧
    (∀ cw rw0 room1 s1, startGame s code cw rw0 now = (Except.ok room1, s1) →
      room1.lastActivity = now) ∧
    (∀ room o room1 s1, getRoom s code = some room →
      submitGuess s code u g a now = (Except.ok (o, room1), s1) →
      room1.lastActivity = room.lastActivity) := by
  refine ⟨?_, ?_, ?_, ?_⟩
  · intro room1 s1 h
    cases hg : getRoom s code with
    | none => simp [addPlayerToRoom, hg] at h
    | some room =>
      simp only [addPlayerToRoom, hg] at h
      split_ifs at h
      · simp at h
      · simp at h
      · simp at h
      · obtain ⟨hr, -⟩ := Prod.mk.injEq .. |>.mp h
        injection hr with hr1
        rw [← hr1]
  · intro s1 h room1 hroom1
    cases hg : getRoom s code with
    | none => simp [removePlayerFromRoom, hg] at h
    | some room =>
      simp only [removePlayerFromRoom, hg] at h
      cases hidx : room.players.findIdx? (fun p => p.username == u) with
      | none => simp [hidx] at h
      | some i =>
        simp only [hidx] at h
        split_ifs at h with hlen hhost
        · obtain ⟨-, hs1⟩ := Prod.mk.injEq .. |>.mp h
          rw [← hs1, getRoom_deleteRoom] at hroom1
          exact absurd hroom1 (by simp)
        · obtain ⟨-, hs1⟩ := Prod.mk.injEq .. |>.mp h
          rw [← hs1, getRoom_setRoom] at hroom1
          obtain rfl : _ = room1 := Option.some.injEq .. |>.mp hroom1
          rfl
        · obtain ⟨-, hs1⟩ := Prod.mk.injEq .. |>.mp h
          rw [← hs1, getRoom_setRoom] at hroom1
          obtain rfl : _ = room1 := Option.some.injEq .. |>.mp hroom1
          rfl
  · intro cw rw0 room1 s1 h
    cases hg : getRoom s code with
    | none => simp [startGame, hg] at h
    | some room =>
      simp only [startGame, hg] at h
      split_ifs at h
      · simp at h
      · simp at h
      · obtain ⟨hr, -⟩ := Prod.mk.injEq .. |>.mp h
        injection hr with hr1
        rw [← hr1]
  · intro room o room1 s1 hg h
    simp only [submitGuess, hg] at h
    cases hs : submitGuessRoom room u g a now with
    | error e => simp [hs] at h
    | ok pr =>
      simp only [hs] at h
      obtain ⟨hok, -⟩ := Prod.mk.injEq .. |>.mp h
      injection hok with hpr
      obtain ⟨-, hr⟩ := Prod.mk.injEq .. |>.mp hpr
      obtain ⟨p, -, -, -, -, hroomeq⟩ :=
        submitGuessRoom_ok_inv room u g a now pr.1 pr.2 (by rw [hs])
      rw [← hr, hroomeq]

/-- Result room of a concrete successful join. -/
def c3addRoom : Room :=
  ((addPlayerToRoom storeMix "DU04" "eve" 50).1.toOption).getD roomSolo

/-- Result room of a concrete successful leave. -/
def c3remRoom : Room :=
  (getRoom (removePlayerFromRoom storeMix "DU03" "carol" 50).2 "DU03").getD roomWait

/-- Result room of a concrete successful game start. -/
def c3startRoom : Room :=
  ((startGame storeWait "DU03" none "HELLO" 50).1.toOption).getD roomWait

/-- Result of a concrete successful guess submission. -/
def c3subPair : Outcome × Room :=
  ((submitGuess storeC3 "DU02" "alice" "WORLD" 1 99).1.toOption).getD
    (Outcome.cont, roomC3)

/-- Witness for C3 amended: concrete join/leave/start set lastActivity to
the call time 50; a concrete guess submission leaves it at `roomC3`'s old
value. -/
theorem c3_amended_witness :
    c3addRoom.lastActivity = 50 ∧ c3remRoom.lastActivity = 50 ∧
    c3startRoom.lastActivity = 50 ∧
    c3subPair.2.lastActivity = roomC3.lastActivity := by
  refine ⟨?_, ?_, ?_, ?_⟩
  · exact (c3_amended storeMix "DU04" "eve" "WORLD" 1 50).1 c3addRoom
      (addPlayerToRoom storeMix "DU04" "eve" 50).2 (by rfl)
  · exact (c3_amended storeMix "DU03" "carol" "WORLD" 1 50).2.1
      (removePlayerFromRoom storeMix "DU03" "carol" 50).2 (by rfl) c3remRoom (by rfl)
  · exact (c3_amended storeWait "DU03" "duo" "WORLD" 1 50).2.2.1 none "HELLO"
      c3startRoom (startGame storeWait "DU03" none "HELLO" 50).2 (by rfl)
  · exact (c3_amended storeC3 "DU02" "alice" "WORLD" 1 99).2.2.2 roomC3 c3subPair.1
      c3subPair.2 (submitGuess storeC3 "DU02" "alice" "WORLD" 1 99).2 (by rfl) (by rfl)

/-- C8: `removePlayerFromRoom` returns false when the room or the player is
absent (store untouched); on removal it returns true, deletes the room when
it becomes empty (subsequent lookup absent), and reassigns the host to the
first remaining player exactly when the departing player was the host. -/
theorem c8_leave (s : Store) (code u : String) (now : Nat) :
    (getRoom s code = none → removePlayerFromRoom s code u now = (false, s)) ∧
    (∀ room, getRoom s code = some room →
      (room.players.findIdx? (fun p => p.username == u) = none →
        removePlayerFromRoom s code u now = (false, s)) ∧
      (∀ i, room.players.findIdx? (fun p => p.username == u) = some i →
        (removePlayerFromRoom s code u now).1 = true ∧
        (room.players.eraseIdx i = [] →
          getRoom (removePlayerFromRoom s code u now).2 code = none) ∧
        (∀ q qs, room.players.eraseIdx i = q :: qs →
          ∃ room2, getRoom (removePlayerFromRoom s code u now).2 code = some room2 ∧
            room2.players = q :: qs ∧
            (room.hostId = u → room2.hostId = q.username) ∧
            (room.hostId ≠ u → room2.hostId = room.hostId)))) := by
  refine ⟨fun h => by simp [removePlayerFromRoom, h], fun room hroom => ⟨?_, ?_⟩⟩
  · intro hidx
    simp [removePlayerFromRoom, hroom, hidx]
  · intro i hidx
    refine ⟨?_, ?_, ?_⟩
    · simp only [removePlayerFromRoom, hroom, hidx]
      split_ifs <;> rfl
    · intro hemp
      simp only [removePlayerFromRoom, hroom, hidx, hemp]
      simp [getRoom_deleteRoom]
    · intro q qs heq
      simp only [removePlayerFromRoom, hroom, hidx, heq]
      have hlen : ¬ ((q :: qs).length = 0) := by simp
      rw [if_neg hlen]
      by_cases hh : room.hostId = u
      · rw [if_pos hh]
        exact ⟨_, getRoom_setRoom s code _, rfl, fun _ => rfl, fun hn => absurd hh hn⟩
      · rw [if_neg hh]
        exact ⟨_, getRoom_setRoom s code _, rfl, fun hcon => absurd hcon hh, fun _ => rfl⟩

/-- Room left after the host "bob" leaves `roomWait`. -/
def c8remRoom : Room :=
  (getRoom (removePlayerFromRoom storeWait "DU03" "bob" 50).2 "DU03").getD roomWait

/-- Witness for C8: removing host "bob" succeeds, reassigns the host to
"carol" and keeps one player; removing the sole player "dave" deletes that
room. -/
theorem c8_leave_witness :
    (removePlayerFromRoom storeWait "DU03" "bob" 50).1 = true ∧
    c8remRoom.hostId = "carol" ∧
    c8remRoom.players.length = 1 ∧
    getRoom (removePlayerFromRoom storeMix "DU04" "dave" 50).2 "DU04" = none := by
  have h := ((c8_leave storeWait "DU03" "bob" 50).2 roomWait (by decide)).2 0 (by decide)
  obtain ⟨h1, -, h3⟩ := h
  obtain ⟨room2, hg, hp, hh, -⟩ :=
    h3 (mkP "carol" [gE "CRANE" 1 2] true true) [] (by decide)
  have hc : c8remRoom = room2 := by
    unfold c8remRoom
    rw [hg]
    rfl
  refine ⟨h1, ?_, ?_, ?_⟩
  · rw [hc]
    exact (hh (by decide)).trans (by rfl)
  · rw [hc, hp]
    rfl
  · exact (((c8_leave storeMix "DU04" "dave" 50).2 roomSolo (by decide)).2 0
      (by decide)).2.1 (by decide)

/-- The three-way case split of `updatedPlayer`, written field by field. -/
theorem updatedPlayer_fields (room : Room) (p : Player) (g : String)
    (a now : Nat) :
    updatedPlayer room p g a now =
      { p with
        guesses := p.guesses ++ [{ word := g, attempt := a, timestamp := now }]
        won := if g = room.solutionWord then true else p.won
        score := if g = room.solutionWord then a else p.score
        eliminated := if g = room.solutionWord then p.eliminated
          else if MAX_GUESSES ≤ p.guesses.length + 1 then true else p.eliminated } := by
  unfold updatedPlayer
  by_cases h1 : g = room.solutionWord
  · simp [h1]
  · by_cases h2 : MAX_GUESSES ≤ p.guesses.length + 1
    · simp [h1, h2, List.length_append]
    · simp [h1, h2, List.length_append]

/-- C10: a successful `submitGuess` changes only the guessing player's
record (one guess appended; won/score set on a match, eliminated set on the
sixth non-matching guess); the room's status, solution word, round number,
bookkeeping fields and every other player are untouched. -/
theorem c10_frame (room : Room) (u g : String) (a now : Nat) (o : Outcome)
    (room1 : Room)
    (h : submitGuessRoom room u g a now = Except.ok (o, room1)) :
    room1.code = room.code ∧ room1.hostId = room.hostId ∧
    room1.solutionWord = room.solutionWord ∧ room1.status = room.status ∧
    room1.mode = room.mode ∧ room1.maxPlayers = room.maxPlayers ∧
    room1.gameStartTime = room.gameStartTime ∧
    room1.roundNumber = room.roundNumber ∧
    room1.createdAt = room.createdAt ∧
    room1.lastActivity = room.lastActivity ∧
    room1.settings = room.settings ∧
    room1.players.length = room.players.length ∧
    (∀ j : Nat, (∀ p, room.players[j]? = some p → p.username ≠ u) →
      room1.players[j]? = room.players[j]?) ∧
    (∃ p, findPlayer room u = some p ∧ p.eliminated = false ∧
      findPlayer room1 u = some
        { p with
          guesses := p.guesses ++ [{ word := g, attempt := a, timestamp := now }]
          won := if g = room.solutionWord then true else p.won
          score := if g = room.solutionWord then a else p.score
          eliminated := if g = room.solutionWord then p.eliminated
            else if MAX_GUESSES ≤ p.guesses.length + 1 then true
            else p.eliminated }) := by
  obtain ⟨p, hfp, he, hv, ho, hr⟩ := submitGuessRoom_ok_inv room u g a now o room1 h
  subst hr
  refine ⟨rfl, rfl, rfl, rfl, rfl, rfl, rfl, rfl, rfl, rfl, rfl, ?_, ?_, ?_⟩
  · exact updateFirst_length room.players u _
  · intro j hj
    exact updateFirst_getElem_ne room.players u _ j hj
  · refine ⟨p, hfp, he, ?_⟩
    have hu : (updatedPlayer room p g a now).username = u :=
      (updatedPlayer_username room p g a now).trans (findPlayer_username room u p hfp)
    have hfind := find?_updateFirst_self room.players u (updatedPlayer room p g a now)
      hu (by rw [show room.players.find? (fun q => q.username == u) = some p from hfp]; rfl)
    show (updateFirst room.players u (updatedPlayer room p g a now)).find?
      (fun q => q.username == u) = _
    rw [hfind, updatedPlayer_fields]

/-- Result of a concrete in-progress guess. -/
def c10res : Outcome × Room :=
  ((submitGuessRoom roomC3 "alice" "WORLD" 1 5).toOption).getD (Outcome.cont, roomC3)

/-- Witness for C10 at a concrete non-matching first guess: status, solution
word and player count are untouched. -/
theorem c10_frame_witness :
    c10res.2.status = roomC3.status ∧
    c10res.2.solutionWord = roomC3.solutionWord ∧
    c10res.2.players.length = roomC3.players.length := by
  have h := c10_frame roomC3 "alice" "WORLD" 1 5 c10res.1 c10res.2 (by rfl)
  obtain ⟨h1, h2, h3, h4, h5, h6, h7, h8, h9, h10, h11, h12, h13, h14⟩ := h
  exact ⟨h4, h3, h12⟩

/-- The battle-royale end-of-round check never touches the player list. -/
theorem brCheck_players (r : Room) (u : String) :
    (brCheck r u).1.players = r.players := by
  unfold brCheck
  split <;> rfl

/-- The win branch never touches the player list. -/
theorem postWon_players (r : Room) (u : String) :
    (postWon r u).1.players = r.players := by
  unfold postWon
  cases r.mode with
  | duel => rfl
  | battleRoyale => exact brCheck_players r u

/-- The exhaustion branch never touches the player list. -/
theorem postEliminated_players (r : Room) (u : String) :
    (postEliminated r u).1.players = r.players := by
  unfold postEliminated
  cases r.mode with
  | duel =>
    cases r.players.find? (fun p => !(p.username == u)) with
    | none => rfl
    | some other =>
      by_cases hc : MAX_GUESSES ≤ other.guesses.length
      · simp [hc]
      · simp [hc]
  | battleRoyale => exact brCheck_players r u

/-- After the handler's checks pass, the room it returns carries exactly the
player list written by `RoomManager.submitGuess`. -/
theorem handleSubmitGuess_players (room : Room) (u g : String) (a now : Nat)
    (p : Player) (hfp : findPlayer room u = some p) (he : p.eliminated = false)
    (hf : isValidWordFormat g = true) (hv : validGuessRM g = true) :
    (handleSubmitGuess room u g a now).1.players =
      updateFirst room.players u (updatedPlayer room p g a now) := by
  simp only [handleSubmitGuess, hfp, he, hf, Bool.false_eq_true, if_false, not_true,
    not_false_iff, ite_false, ite_true]
  rw [submitGuessRoom_eq room u g a now p hfp he hv]
  cases ho : expectedOutcome room p g with
  | won =>
    simp only [postWon_players]
  | eliminated =>
    simp only [postEliminated_players]
  | cont =>
    simp only []

/-- C2 counterexample: in the finished room `roomFin`, bob's guess is still
processed and recorded, so the room changes; "no further submitGuess is
processed in a finished room" fails on the code. -/
theorem c2_counterexample :
    (handleSubmitGuess roomFin "bob" "WORLD" 1 30).1 ≠ roomFin ∧
    ((findPlayer (handleSubmitGuess roomFin "bob" "WORLD" 1 30).1 "bob").map
      (fun p => p.guesses.length)) = some 1 := by
  refine ⟨by decide, by decide⟩

/-- C2 amended: a duel guess equal to the solution finishes the room at once
with the guesser as winner; but Finished is not terminal for guesses: a
non-eliminated player's well-formed guess in a finished room is still
recorded. -/
theorem c2_amended (room : Room) (u g : String) (a now : Nat) (p : Player)
    (hfp : findPlayer room u = some p) (he : p.eliminated = false)
    (hf : isValidWordFormat g = true) (hv : validGuessRM g = true) :
    (room.mode = Mode.duel → g = room.solutionWord →
      (handleSubmitGuess room u g a now).1.status = Status.finished ∧
      GameEvent.gameOver (some u) ∈ (handleSubmitGuess room u g a now).2) ∧
    (room.status = Status.finished →
      ∃ p1, findPlayer (handleSubmitGuess room u g a now).1 u = some p1 ∧
        p1.guesses = p.guesses ++ [{ word := g, attempt := a, timestamp := now }]) := by
  constructor
  · intro hmode hsol
    have ho : expectedOutcome room p g = Outcome.won := by
      simp [expectedOutcome, hsol]
    simp only [handleSubmitGuess, hfp, he, hf, Bool.false_eq_true, if_false, not_true,
      not_false_iff, ite_false, ite_true]
    rw [submitGuessRoom_eq room u g a now p hfp he hv]
    simp only [ho, postWon, hmode]
    simp
  · intro hfin
    have hu : (updatedPlayer room p g a now).username = u :=
      (updatedPlayer_username room p g a now).trans (findPlayer_username room u p hfp)
    refine ⟨updatedPlayer room p g a now, ?_, updatedPlayer_guesses room p g a now⟩
    show ((handleSubmitGuess room u g a now).1.players.find?
      (fun q => q.username == u)) = _
    rw [handleSubmitGuess_players room u g a now p hfp he hf hv]
    exact find?_updateFirst_self room.players u (updatedPlayer room p g a now) hu
      (by rw [show room.players.find? (fun q => q.username == u) = some p from hfp]; rfl)

/-- The record bob holds after guessing in the finished room. -/
def c2finPlayer : Player :=
  (findPlayer (handleSubmitGuess roomFin "bob" "WORLD" 1 30).1 "bob").getD defaultPlayer

/-- Witness for C2 amended: alice's exact guess finishes `roomC3` with her
as winner; bob's guess in the finished `roomFin` is recorded. -/
theorem c2_amended_witness :
    (handleSubmitGuess roomC3 "alice" "HELLO" 1 7).1.status = Status.finished ∧
    GameEvent.gameOver (some "alice") ∈ (handleSubmitGuess roomC3 "alice" "HELLO" 1 7).2 ∧
    c2finPlayer.guesses = [gE "WORLD" 1 30] := by
  obtain ⟨ha, hb⟩ :=
    (c2_amended roomC3 "alice" "HELLO" 1 7 (mkP "alice" [] false false)
      (by decide) (by decide) (by decide) (by decide)).1 (by decide) (by decide)
  obtain ⟨p1, hfind, hg⟩ :=
    (c2_amended roomFin "bob" "WORLD" 1 30 (mkP "bob" [] false false)
      (by decide) (by decide) (by decide) (by decide)).2 (by decide)
  have hc : c2finPlayer = p1 := by
    unfold c2finPlayer
    rw [show findPlayer (handleSubmitGuess roomFin "bob" "WORLD" 1 30).1 "bob" =
      some p1 from hfind]
    rfl
  exact ⟨ha, hb, by rw [hc, hg]; rfl⟩

/-- C6: in a duel, a sixth non-matching guess eliminates the guesser; if the
other player has also used up six guesses the room finishes as a draw
(game-over with winner null), otherwise the room stays playing. -/
theorem c6_duel_exhaustion (room : Room) (u g : String) (a now : Nat) (p : Player)
    (hmode : room.mode = Mode.duel) (hst : room.status = Status.playing)
    (hfp : findPlayer room u = some p) (he : p.eliminated = false)
    (hf : isValidWordFormat g = true) (hv : validGuessRM g = true)
    (hsol : g ≠ room.solutionWord) (hcnt : p.guesses.length = 5) :
    ∀ q, room.players.find? (fun r => !(r.username == u)) = some q →
      ((MAX_GUESSES ≤ q.guesses.length →
        (handleSubmitGuess room u g a now).1.status = Status.finished ∧
        GameEvent.gameOver none ∈ (handleSubmitGuess room u g a now).2) ∧
       (q.guesses.length < MAX_GUESSES →
        (handleSubmitGuess room u g a now).1.status = Status.playing)) := by
  intro q hq
  have ho : expectedOutcome room p g = Outcome.eliminated := by
    simp [expectedOutcome, hsol, hcnt, MAX_GUESSES]
  have hu : (updatedPlayer room p g a now).username = u :=
    (updatedPlayer_username room p g a now).trans (findPlayer_username room u p hfp)
  have hfind1 : (updateFirst room.players u (updatedPlayer room p g a now)).find?
      (fun r => !(r.username == u)) = some q := by
    rw [find?_ne_updateFirst room.players u _ hu]
    exact hq
  constructor
  · intro h6
    simp only [handleSubmitGuess, hfp, he, hf, Bool.false_eq_true, if_false, not_true,
      not_false_iff, ite_false, ite_true]
    rw [submitGuessRoom_eq room u g a now p hfp he hv]
    simp only [ho, postEliminated, hmode, hfind1, if_pos h6]
    simp
  · intro hlt
    simp only [handleSubmitGuess, hfp, he, hf, Bool.false_eq_true, if_false, not_true,
      not_false_iff, ite_false, ite_true]
    rw [submitGuessRoom_eq room u g a now p hfp he hv]
    simp only [ho, postEliminated, hmode, hfind1, if_neg (Nat.not_le.mpr hlt)]
    simp [hst]

/-- Five prior guesses for exhaustion fixtures. -/
def fiveGuesses : List GuessEntry :=
  [gE "CRANE" 1 1, gE "SLATE" 2 2, gE "GRIME" 3 3, gE "POUTY" 4 4, gE "BLAHS" 5 5]

/-- Six prior guesses (an exhausted player). -/
def sixGuesses : List GuessEntry := fiveGuesses ++ [gE "WRONG" 6 6]

/-- Duel where the other player bob has already used all six guesses. -/
def roomC6a : Room :=
  { code := "DU05", hostId := "alice",
    players := [mkP "alice" fiveGuesses false false, mkP "bob" sixGuesses true false],
    solutionWord := "HELLO", status := Status.playing, mode := Mode.duel,
    maxPlayers := 2, gameStartTime := some 1, roundNumber := 1,
    createdAt := 0, lastActivity := 1, settings := stdSettings }

/-- Duel where the other player bob still has guesses left. -/
def roomC6b : Room :=
  { code := "DU06", hostId := "alice",
    players := [mkP "alice" fiveGuesses false false, mkP "bob" [gE "CRANE" 1 1] false false],
    solutionWord := "HELLO", status := Status.playing, mode := Mode.duel,
    maxPlayers := 2, gameStartTime := some 1, roundNumber := 1,
    createdAt := 0, lastActivity := 1, settings := stdSettings }

/-- Witness for C6: with bob exhausted the room finishes as a draw; with bob
still in, it stays playing. -/
theorem c6_duel_exhaustion_witness :
    (handleSubmitGuess roomC6a "alice" "WORLD" 6 9).1.status = Status.finished ∧
    GameEvent.gameOver none ∈ (handleSubmitGuess roomC6a "alice" "WORLD" 6 9).2 ∧
    (handleSubmitGuess roomC6b "alice" "WORLD" 6 9).1.status = Status.playing := by
  obtain ⟨h1, h2⟩ :=
    ((c6_duel_exhaustion roomC6a "alice" "WORLD" 6 9 (mkP "alice" fiveGuesses false false)
        (by decide) (by decide) (by decide) (by decide) (by decide) (by decide)
        (by decide) (by decide)) (mkP "bob" sixGuesses true false) (by decide)).1 (by decide)
  refine ⟨h1, h2, ?_⟩
  exact ((c6_duel_exhaustion roomC6b "alice" "WORLD" 6 9 (mkP "alice" fiveGuesses false false)
      (by decide) (by decide) (by decide) (by decide) (by decide) (by decide)
      (by decide) (by decide)) (mkP "bob" [gE "CRANE" 1 1] false false) (by decide)).2 (by decide)

/-- C1: evaluation of the handler at the failing input.  In `roomBR3` alice
guesses the exact solution on attempt 3: she is marked `won` but her
`eliminated` flag stays false, the recomputed active set still counts all
three players, the room stays playing, and the emitted `player-eliminated`
event reports 3 remaining players — the winner is never removed from the
active set, contradicting the documented elimination-by-victory. -/
theorem c1_code_eval :
    ((findPlayer (handleSubmitGuess roomBR3 "alice" "HELLO" 3 20).1 "alice").map
      Player.won = some true) ∧
    ((findPlayer (handleSubmitGuess roomBR3 "alice" "HELLO" 3 20).1 "alice").map
      Player.eliminated = some false) ∧
    ((activePlayers (handleSubmitGuess roomBR3 "alice" "HELLO" 3 20).1).length = 3) ∧
    ((handleSubmitGuess roomBR3 "alice" "HELLO" 3 20).1.status = Status.playing) ∧
    (GameEvent.playerEliminated "alice" 3 ∈
      (handleSubmitGuess roomBR3 "alice" "HELLO" 3 20).2) := by
  refine ⟨by decide, by decide, by decide, by decide, by decide⟩
